import Mathlib

/-!
Verification of the poll-validate-notify loop of `homework.py`.

The Python module is shallowly embedded: decoded JSON values become the
inductive `PyVal`, Python exceptions become the inductive `PyError`, and
each function of the module (`get_api_answer`, `check_response`,
`parse_status`, `send_message`, and the body of `main`'s `while` loop)
becomes a Lean function of the same name.  Network effects are passed in
explicitly: the outcome of `requests.get` is an `Except String HttpResponse`
(a transport exception's text, or a status code plus decoded body), and the
outcome of the Telegram `bot.send_message` call is an `Except String Unit`.
-/

/-- Decoded JSON values as Python sees them.  A `vdict` holds the dict's
items in order; keys are assumed distinct (as produced by a JSON decoder),
and lookups take the first binding. -/
inductive PyVal where
  | vnone
  | vbool (b : Bool)
  | vint (n : Int)
  | vstr (s : String)
  | vlist (xs : List PyVal)
  | vdict (es : List (String × PyVal))

/-- Python exceptions raised by the module, by class, carrying the argument
string the code constructs (for `KeyError` the argument, unquoted). -/
inductive PyError where
  | typeError (msg : String)
  | keyError (msg : String)
  | valueError (msg : String)
  | nameError (msg : String)
  | connectionError (msg : String)
  | attributeError (msg : String)
deriving DecidableEq

/-- Python exception class name of an embedded exception. -/
def errKind : PyError → String
  | .typeError _ => "TypeError"
  | .keyError _ => "KeyError"
  | .valueError _ => "ValueError"
  | .nameError _ => "NameError"
  | .connectionError _ => "ConnectionError"
  | .attributeError _ => "AttributeError"

/-- Python `str(exception)`: the argument, except that `KeyError` reprs it. -/
def errStr : PyError → String
  | .keyError m => "\x27" ++ m ++ "\x27"
  | .typeError m => m
  | .valueError m => m
  | .nameError m => m
  | .connectionError m => m
  | .attributeError m => m

/-- First-occurrence association-list lookup, the semantics of `d[k]` and
`d.get(k)` on an embedded dict. -/
def alookup {α : Type} : List (String × α) → String → Option α
  | [], _ => none
  | (k, v) :: es, key => if k = key then some v else alookup es key

/-- Python `key in d` for a dict: key membership. -/
def hasKey {α : Type} (es : List (String × α)) (key : String) : Bool :=
  (alookup es key).isSome

/-- Python `d.get(key)` on a dict: the value, or `None` when absent. -/
def dictGet (es : List (String × PyVal)) (key : String) : PyVal :=
  (alookup es key).getD .vnone

/-- Python `d.get(key, default)` on a dict. -/
def dictGetD (es : List (String × PyVal)) (key : String) (dflt : PyVal) : PyVal :=
  (alookup es key).getD dflt

/-- Python truthiness of a decoded JSON value (`if x:`). -/
def truthy : PyVal → Bool
  | .vnone => false
  | .vbool b => b
  | .vint n => n != 0
  | .vstr s => s != ""
  | .vlist xs => !xs.isEmpty
  | .vdict es => !es.isEmpty

/-- Python `type(x).__name__` for an embedded value. -/
def pyTypeName : PyVal → String
  | .vnone => "NoneType"
  | .vbool _ => "bool"
  | .vint _ => "int"
  | .vstr _ => "str"
  | .vlist _ => "list"
  | .vdict _ => "dict"

mutual

/-- Python `repr(x)` for an embedded value. -/
def pyRepr : PyVal → String
  | .vnone => "None"
  | .vbool true => "True"
  | .vbool false => "False"
  | .vint n => toString n
  | .vstr s => "\x27" ++ s ++ "\x27"
  | .vlist xs => "[" ++ pyReprList xs ++ "]"
  | .vdict es => "\x7b" ++ pyReprEntries es ++ "\x7d"

/-- Comma-joined reprs of a list's elements. -/
def pyReprList : List PyVal → String
  | [] => ""
  | [x] => pyRepr x
  | x :: y :: xs => pyRepr x ++ ", " ++ pyReprList (y :: xs)

/-- Comma-joined `'key': repr` pairs of a dict's items. -/
def pyReprEntries : List (String × PyVal) → String
  | [] => ""
  | [(k, v)] => "\x27" ++ k ++ "\x27: " ++ pyRepr v
  | (k, v) :: e :: es =>
      "\x27" ++ k ++ "\x27: " ++ pyRepr v ++ ", " ++ pyReprEntries (e :: es)

end

/-- Python `str(x)` for an embedded value: strings print bare, everything
else as its repr. -/
def pyStr : PyVal → String
  | .vstr s => s
  | v => pyRepr v

/-- Python `repr(d.items())`: `dict_items([(k, v), ...])`. -/
def itemsReprPairs : List (String × PyVal) → String
  | [] => ""
  | [(k, v)] => "(\x27" ++ k ++ "\x27, " ++ pyRepr v ++ ")"
  | (k, v) :: e :: es =>
      "(\x27" ++ k ++ "\x27, " ++ pyRepr v ++ "), " ++ itemsReprPairs (e :: es)

/-- Python `str(d.items())` as interpolated by `str.format`. -/
def itemsRepr (es : List (String × PyVal)) : String :=
  "dict_items([" ++ itemsReprPairs es ++ "])"

/-- Python `str(xs)` for a list of strings, as `str.format` renders the
`missing_keys` list. -/
def strListRepr : List String → String
  | [] => "[]"
  | xs => "[" ++ String.intercalate ", " (xs.map (fun s => "\x27" ++ s ++ "\x27")) ++ "]"

/-- Rendering of `type(x)` inside an f-string: `<class 'name'>`. -/
def classRepr (name : String) : String :=
  "<class \x27" ++ name ++ "\x27>"

/-- Module constant `ENDPOINT`. -/
def ENDPOINT : String := "https://practicum.yandex.ru/api/user_api/homework_statuses/"

/-- Module constant `RETRY_PERIOD` (seconds between cycles). -/
def RETRY_PERIOD : Nat := 600

/-- Stand-in for the environment-provided `PRACTICUM_TOKEN` secret; the
claims under verification do not depend on its value. -/
def PRACTICUM_TOKEN : String := "PRACTICUM_TOKEN"

/-- Module constant `HOMEWORK_VERDICTS`, the verdict table, in source
order. -/
def HOMEWORK_VERDICTS : List (String × String) :=
  [("approved", "Работа проверена: ревьюеру всё понравилось. Ура!"),
   ("reviewing", "Работа взята на проверку ревьюером."),
   ("rejected", "Работа проверена: у ревьюера есть замечания.")]

/-- Rendering of the module constant `HEADERS` inside error messages. -/
def HEADERS_STR : String :=
  "\x7b\x27Authorization\x27: \x27OAuth " ++ PRACTICUM_TOKEN ++ "\x27\x7d"

/-- Rendering of the request params dict, with the cursor value. -/
def PARAMS_STR (timestamp : PyVal) : String :=
  "\x7b\x27from_date\x27: " ++ pyRepr timestamp ++ "\x7d"

/-- Template `API_CONNECTION_ERROR`, applied. -/
def API_CONNECTION_ERROR (detail : String) (timestamp : PyVal) : String :=
  "ошибка запроса к API: " ++ detail ++ ". URL: " ++ ENDPOINT ++ ", HEADERS: "
    ++ HEADERS_STR ++ ", PARAMS: " ++ PARAMS_STR timestamp

/-- Template `API_ERROR`, applied to the body's items and the cursor. -/
def API_ERROR (es : List (String × PyVal)) (timestamp : PyVal) : String :=
  "ошибка запроса к API, в ответе найдены ключи и их значения: " ++ itemsRepr es
    ++ ". URL: " ++ ENDPOINT ++ ", HEADERS: " ++ HEADERS_STR ++ ", PARAMS: "
    ++ PARAMS_STR timestamp

/-- Template `API_RESPONSE_ERROR`, applied to the HTTP status code. -/
def API_RESPONSE_ERROR (code : Nat) (timestamp : PyVal) : String :=
  "API Практикума недоступно. Ошибка " ++ toString code ++ ". URL: " ++ ENDPOINT
    ++ ", HEADERS: " ++ HEADERS_STR ++ ", PARAMS: " ++ PARAMS_STR timestamp

/-- Template `RESPONSE_TYPE_ERROR`, applied to the offending type. -/
def RESPONSE_TYPE_ERROR (tname : String) : String :=
  "в ответе пришел не словарь, а " ++ classRepr tname

/-- Module constant `NO_HOMEWORKS_IN_RESPONSE_ERROR`. -/
def NO_HOMEWORKS_IN_RESPONSE_ERROR : String := "в ответе отсутствует ключ homeworks."

/-- Template `HOMEWORKS_TYPE_ERROR`, applied to the offending type. -/
def HOMEWORKS_TYPE_ERROR (tname : String) : String :=
  "в ответе пришел не список, а " ++ classRepr tname

/-- Module constant `NO_NEW_STATUSES` (debug-log text). -/
def NO_NEW_STATUSES : String := "в ответе отсутствуют новые статусы"

/-- Template `HOMEWORK_MISSING_KEYS`, applied to the missing-keys list. -/
def HOMEWORK_MISSING_KEYS (keys : List String) : String :=
  "в ответе не найдены ключи: " ++ strListRepr keys

/-- Template `UNEXPECTED_HOMEWORK_STATUS`, applied to `str(status)`. -/
def UNEXPECTED_HOMEWORK_STATUS (status : String) : String :=
  "неожиданный статус у работы - " ++ status

/-- Template `HOMEWORK_STATUS_CHANGED_MESSAGE`, applied to the name and the
verdict sentence.  The spec glosses this localized template as
`Status changed for submission "<name>". <verdict sentence>`. -/
def HOMEWORK_STATUS_CHANGED_MESSAGE (homework_name status : String) : String :=
  "Изменился статус проверки работы \"" ++ homework_name ++ "\". " ++ status

/-- Template `BOT_SEND_MESSAGE`, applied to the sent text. -/
def BOT_SEND_MESSAGE (message : String) : String :=
  "Бот отправил сообщение: " ++ message

/-- Template `BOT_SEND_MESSAGE_ERROR`, applied to the text and the error. -/
def BOT_SEND_MESSAGE_ERROR (message error : String) : String :=
  "ошибка при отправке сообщения: " ++ message ++ ". Ошибка: \"" ++ error ++ "\""

/-- Template `EXCEPTION_TEXT`, applied to `str(error)`. -/
def EXCEPTION_TEXT (error : String) : String :=
  "Сбой в работе программы: " ++ error

/-- An HTTP response as the transport hands it to `get_api_answer`: the
status code and the already-decoded JSON body (`response.json()`). -/
structure HttpResponse where
  status_code : Nat
  body : PyVal

/-- Embedding of `get_api_answer(timestamp)`.  The `requests.get` outcome is
the explicit argument `transport`: `.error e` for a raised
`requests.exceptions.RequestException` with text `e`, `.ok r` for a
response.  A 200 body that is not a dict makes `json_response.get('code')`
raise `AttributeError`, which propagates. -/
def get_api_answer (timestamp : PyVal) (transport : Except String HttpResponse) :
    Except PyError PyVal :=
  match transport with
  | .error e => .error (.connectionError (API_CONNECTION_ERROR e timestamp))
  | .ok response =>
    if response.status_code = 200 then
      match response.body with
      | .vdict es =>
        let code := dictGet es "code"
        let error := dictGet es "error"
        if truthy code || truthy error then
          .error (.nameError (API_ERROR es timestamp))
        else
          .ok (.vdict es)
      | other =>
        .error (.attributeError
          ("\x27" ++ pyTypeName other ++ "\x27 object has no attribute \x27get\x27"))
    else
      .error (.connectionError (API_RESPONSE_ERROR response.status_code timestamp))

/-- Embedding of `check_response(response)`: type check, key check, list
check; returns the `homeworks` list's elements verbatim. -/
def check_response (response : PyVal) : Except PyError (List PyVal) :=
  match response with
  | .vdict es =>
    if hasKey es "homeworks" then
      match dictGet es "homeworks" with
      | .vlist xs => .ok xs
      | other => .error (.typeError (HOMEWORKS_TYPE_ERROR (pyTypeName other)))
    else
      .error (.keyError NO_HOMEWORKS_IN_RESPONSE_ERROR)
  | other => .error (.typeError (RESPONSE_TYPE_ERROR (pyTypeName other)))

/-- Python `key in container` for the containers a decoded JSON value can
be: key membership for a dict, element equality for a list (a string key
only ever equals a string element), substring test for a string, and
`TypeError` for the non-iterable scalars. -/
def pyContains (container : PyVal) (key : String) : Except PyError Bool :=
  match container with
  | .vdict es => .ok (hasKey es key)
  | .vlist xs => .ok (xs.any (fun v => match v with | .vstr s => s == key | _ => false))
  | .vstr s => .ok ((key == "") || decide (2 ≤ (s.splitOn key).length))
  | other =>
      .error (.typeError
        ("argument of type \x27" ++ pyTypeName other ++ "\x27 is not iterable"))

/-- Python `container[key]` for a string subscript. -/
def pySubscript (container : PyVal) (key : String) : Except PyError PyVal :=
  match container with
  | .vdict es =>
    match alookup es key with
    | some v => .ok v
    | none => .error (.keyError key)
  | .vlist _ => .error (.typeError "list indices must be integers or slices, not str")
  | .vstr _ => .error (.typeError "string indices must be integers")
  | other =>
      .error (.typeError
        ("\x27" ++ pyTypeName other ++ "\x27 object is not subscriptable"))

/-- Python `status in HOMEWORK_VERDICTS`: membership of an arbitrary value
in the verdict table's keys.  Unhashable values (lists, dicts) raise
`TypeError`; hashable non-strings are simply not among the string keys. -/
def statusInVerdicts (status : PyVal) : Except PyError Bool :=
  match status with
  | .vstr s => .ok (hasKey HOMEWORK_VERDICTS s)
  | .vlist _ => .error (.typeError "unhashable type: \x27list\x27")
  | .vdict _ => .error (.typeError "unhashable type: \x27dict\x27")
  | _ => .ok false

/-- Python `HOMEWORK_VERDICTS.get(status)`: `None` for any non-key. -/
def verdictsGet (status : PyVal) : Option String :=
  match status with
  | .vstr s => alookup HOMEWORK_VERDICTS s
  | _ => none

/-- Rendering of an optional string by `str.format` (`None` when absent). -/
def optStr (o : Option String) : String :=
  match o with
  | some s => s
  | none => "None"

/-- Embedding of `parse_status(homework)`: collect the missing keys in
source order, fail with `KeyError` naming them all; otherwise test the
status against the verdict table, failing with `ValueError` naming it, or
produce the templated message. -/
def parse_status (homework : PyVal) : Except PyError String :=
  match pyContains homework "homework_name" with
  | .error e => .error e
  | .ok c1 =>
    match pyContains homework "status" with
    | .error e => .error e
    | .ok c2 =>
      let missing_keys :=
        (if c1 then [] else ["homework_name"]) ++ (if c2 then [] else ["status"])
      if missing_keys = [] then
        match pySubscript homework "status" with
        | .error e => .error e
        | .ok status =>
          match statusInVerdicts status with
          | .error e => .error e
          | .ok false => .error (.valueError (UNEXPECTED_HOMEWORK_STATUS (pyStr status)))
          | .ok true =>
            match pySubscript homework "homework_name" with
            | .error e => .error e
            | .ok name =>
              .ok (HOMEWORK_STATUS_CHANGED_MESSAGE (pyStr name)
                    (optStr (verdictsGet status)))
      else
        .error (.keyError (HOMEWORK_MISSING_KEYS missing_keys))

/-- A log line written by `send_message`. -/
inductive LogEvent where
  | debug (msg : String)
  | error (msg : String)
deriving DecidableEq

/-- Embedding of `send_message(bot, message)`.  The Telegram call's outcome
is the explicit argument `transport`.  The outer `Except PyError` layer is
the exception channel to the caller; the pair is the Python return value
(always `None`, modelled `none : Option Bool`) together with the log lines
written. -/
def send_message (message : String) (transport : Except String Unit) :
    Except PyError (Option Bool × List LogEvent) :=
  match transport with
  | .ok _ => .ok (none, [LogEvent.debug (BOT_SEND_MESSAGE message)])
  | .error e => .ok (none, [LogEvent.error (BOT_SEND_MESSAGE_ERROR message e)])

/-- The mutable state `main` keeps across cycles: the variables
`timestamp`, `api_answer`, `message`, `last_message`.  `timestamp` and
`api_answer` are `PyVal` because the code can rebind them to arbitrary
decoded values (`api_answer.get('current_date', timestamp)`). -/
structure LoopState where
  timestamp : PyVal
  api_answer : PyVal
  message : String
  last_message : String

/-- The state `main` builds before entering the loop, with
`int(time.time())` passed in as `t`. -/
def initialState (t : Int) : LoopState :=
  { timestamp := .vint t, api_answer := .vstr "", message := "", last_message := "" }

/-- First `try` block of the loop body: fetch, validate, format.  Returns
the values of the variables `api_answer` and `message` after the block;
any raised exception is caught and turned into the `EXCEPTION_TEXT`
diagnostic.  With an empty homework list, `message` keeps its previous
value. -/
def step1 (s : LoopState) (transport : Except String HttpResponse) :
    PyVal × String :=
  match get_api_answer s.timestamp transport with
  | .error e => (s.api_answer, EXCEPTION_TEXT (errStr e))
  | .ok body =>
    match check_response body with
    | .error e => (body, EXCEPTION_TEXT (errStr e))
    | .ok homeworks =>
      match homeworks with
      | [] => (body, s.message)
      | hw :: _ =>
        match parse_status hw with
        | .error e => (body, EXCEPTION_TEXT (errStr e))
        | .ok m => (body, m)

/-- Second `try` block of the loop body, given the post-`step1` values of
`api_answer` and `message`.  When the message is non-empty and differs from
`last_message`, `send_message` is called (it never raises) and then
`timestamp = api_answer.get('current_date', timestamp)` runs; on a
non-dict `api_answer` that `.get` raises `AttributeError`, the bare
`except` swallows it, and the `last_message = message` line is skipped.
Returns the new state and the list of texts passed to `send_message`. -/
def step2 (s : LoopState) (api_answer : PyVal) (message : String) :
    LoopState × List String :=
  if message ≠ "" ∧ message ≠ s.last_message then
    match api_answer with
    | .vdict es =>
      ({ timestamp := dictGetD es "current_date" s.timestamp,
         api_answer := .vdict es, message := message, last_message := message },
       [message])
    | a =>
      ({ timestamp := s.timestamp, api_answer := a, message := message,
         last_message := s.last_message },
       [message])
  else
    ({ timestamp := s.timestamp, api_answer := api_answer, message := message,
       last_message := message },
     [])

/-- One iteration of `main`'s `while True` body (the sleep aside): the two
`try` blocks in sequence.  The pair holds the state carried to the next
cycle and the texts sent to the Notifier during the cycle. -/
def cycle (s : LoopState) (transport : Except String HttpResponse) :
    LoopState × List String :=
  step2 s (step1 s transport).1 (step1 s transport).2

/-- A successful association-list lookup means the key is present. -/
theorem alookup_hasKey {α : Type} {es : List (String × α)} {k : String} {v : α}
    (h : alookup es k = some v) : hasKey es k = true := by
  simp [hasKey, h]

/-- The second `try` block always leaves `message` equal to its input. -/
theorem step2_message (s : LoopState) (a : PyVal) (m : String) :
    (step2 s a m).1.message = m := by
  unfold step2
  split
  · split <;> rfl
  · rfl

/-- The second `try` block stores its input `api_answer` unchanged. -/
theorem step2_api_answer (s : LoopState) (a : PyVal) (m : String) :
    (step2 s a m).1.api_answer = a := by
  unfold step2
  split
  · split <;> rfl
  · rfl

/-- C1.  The code tests the `code` and `error` fields for Python
truthiness, not presence: a 200 body carrying `code` or `error` with a
falsy value (here `code = 0`) is returned as a successful fetch, against
the claim's "regardless of that field's value". -/
theorem c1_falsy_code_counterexample :
    get_api_answer (.vint 0)
        (.ok ⟨200, .vdict [("code", .vint 0), ("homeworks", .vlist [])]⟩)
      = .ok (.vdict [("code", .vint 0), ("homeworks", .vlist [])])
    ∧ hasKey [("code", PyVal.vint 0), ("homeworks", PyVal.vlist [])] "code" = true :=
  ⟨rfl, rfl⟩

/-- C1 (amended).  For a 200 response with a dict body, `get_api_answer`
raises the embedded-error `NameError` (the spec's `ApiError`) exactly when
the `code` or `error` field holds a truthy value, and otherwise returns
the body unmodified. -/
theorem c1_api_error_truthy_amended :
    (∀ ts es, (truthy (dictGet es "code") || truthy (dictGet es "error")) = true →
      get_api_answer ts (.ok ⟨200, .vdict es⟩)
        = .error (.nameError (API_ERROR es ts)))
    ∧ (∀ ts es, (truthy (dictGet es "code") || truthy (dictGet es "error")) = false →
      get_api_answer ts (.ok ⟨200, .vdict es⟩) = .ok (.vdict es)) := by
  constructor <;> intro ts es h <;> simp [get_api_answer, h]

/-- C1 witness: a truthy `error` field fails, a falsy `code` field is
returned as success. -/
theorem c1_api_error_truthy_witness :
    get_api_answer (.vint 7) (.ok ⟨200, .vdict [("error", .vstr "oops")]⟩)
      = .error (.nameError (API_ERROR [("error", .vstr "oops")] (.vint 7)))
    ∧ get_api_answer (.vint 7) (.ok ⟨200, .vdict [("code", .vint 0)]⟩)
      = .ok (.vdict [("code", .vint 0)]) :=
  ⟨c1_api_error_truthy_amended.1 (.vint 7) [("error", .vstr "oops")] rfl,
   c1_api_error_truthy_amended.2 (.vint 7) [("code", .vint 0)] rfl⟩

/-- C8.  Every non-200 response fails with the `ConnectionError` built from
`API_RESPONSE_ERROR`, whose text carries the numeric status code (the
spec's `HttpError`), and a successful fetch can only come from a 200
response. -/
theorem c8_http_error :
    (∀ ts r, r.status_code ≠ 200 →
      get_api_answer ts (.ok r)
        = .error (.connectionError (API_RESPONSE_ERROR r.status_code ts)))
    ∧ (∀ ts tr v, get_api_answer ts tr = .ok v →
        ∃ r, tr = .ok r ∧ r.status_code = 200) := by
  constructor
  · intro ts r h
    simp [get_api_answer, h]
  · intro ts tr v h
    match tr with
    | .error e => simp [get_api_answer] at h
    | .ok r =>
      refine ⟨r, rfl, ?_⟩
      by_contra hne
      simp [get_api_answer, hne] at h

/-- C8 witness: HTTP 400 in particular is rejected with the status code in
the error text. -/
theorem c8_http_error_witness :
    get_api_answer (.vint 0) (.ok ⟨400, .vdict []⟩)
      = .error (.connectionError (API_RESPONSE_ERROR 400 (.vint 0))) :=
  c8_http_error.1 (.vint 0) ⟨400, .vdict []⟩ (by decide)

/-- C4.  The three shape failures of `check_response` are not all of the
same exception kind: a non-mapping input and a non-list `homeworks` value
raise `TypeError`, but a missing `homeworks` key raises `KeyError`. -/
theorem c4_mixed_kinds_counterexample :
    check_response (.vint 5) = .error (.typeError (RESPONSE_TYPE_ERROR "int"))
    ∧ check_response (.vdict []) = .error (.keyError NO_HOMEWORKS_IN_RESPONSE_ERROR)
    ∧ check_response (.vdict [("homeworks", .vint 3)])
        = .error (.typeError (HOMEWORKS_TYPE_ERROR "int"))
    ∧ errKind (.keyError NO_HOMEWORKS_IN_RESPONSE_ERROR)
        ≠ errKind (.typeError (RESPONSE_TYPE_ERROR "int")) := by
  refine ⟨rfl, rfl, rfl, ?_⟩
  decide

/-- C4 (amended).  All three malformed shapes make `check_response` fail,
but with two exception kinds: non-mapping inputs and non-list `homeworks`
values raise `TypeError`, a mapping without the `homeworks` key raises
`KeyError`. -/
theorem c4_shape_failures_amended :
    (∀ v, (∀ es, v ≠ PyVal.vdict es) →
      check_response v = .error (.typeError (RESPONSE_TYPE_ERROR (pyTypeName v))))
    ∧ (∀ es, hasKey es "homeworks" = false →
      check_response (.vdict es) = .error (.keyError NO_HOMEWORKS_IN_RESPONSE_ERROR))
    ∧ (∀ es v, alookup es "homeworks" = some v → (∀ xs, v ≠ PyVal.vlist xs) →
      check_response (.vdict es)
        = .error (.typeError (HOMEWORKS_TYPE_ERROR (pyTypeName v)))) := by
  refine ⟨?_, ?_, ?_⟩
  · intro v h
    cases v with
    | vdict es => exact absurd rfl (h es)
    | vnone => rfl
    | vbool b => rfl
    | vint n => rfl
    | vstr s => rfl
    | vlist xs => rfl
  · intro es h
    simp [check_response, h]
  · intro es v hl hnl
    have hk : hasKey es "homeworks" = true := alookup_hasKey hl
    have hg : dictGet es "homeworks" = v := by simp [dictGet, hl]
    cases v with
    | vlist xs => exact absurd rfl (hnl xs)
    | vnone => simp [check_response, hk, hg]
    | vbool b => simp [check_response, hk, hg]
    | vint n => simp [check_response, hk, hg]
    | vstr s => simp [check_response, hk, hg]
    | vdict es2 => simp [check_response, hk, hg]

/-- C4 witness: a non-mapping, a mapping without `homeworks`, and a mapping
with a non-list `homeworks`, each failing as the amended claim states. -/
theorem c4_shape_failures_witness :
    check_response (.vint 5) = .error (.typeError (RESPONSE_TYPE_ERROR "int"))
    ∧ check_response (.vdict [("x", .vint 1)])
        = .error (.keyError NO_HOMEWORKS_IN_RESPONSE_ERROR)
    ∧ check_response (.vdict [("homeworks", .vstr "hw")])
        = .error (.typeError (HOMEWORKS_TYPE_ERROR "str")) :=
  ⟨c4_shape_failures_amended.1 (.vint 5) (fun _ h => nomatch h),
   c4_shape_failures_amended.2.1 [("x", .vint 1)] rfl,
   c4_shape_failures_amended.2.2 [("homeworks", .vstr "hw")] (.vstr "hw") rfl
     (fun _ h => nomatch h)⟩

/-- C5.  `check_response` does not return the `current_date` cursor at all:
two valid responses that differ only in their `current_date` field produce
the identical result, so the validator's return value cannot signal the
cursor's value or absence (the caller `main` reads the field itself from
the raw response). -/
theorem c5_no_cursor_counterexample :
    check_response (.vdict [("homeworks", .vlist []), ("current_date", .vint 100)])
      = .ok []
    ∧ check_response (.vdict [("homeworks", .vlist [])]) = .ok []
    ∧ check_response (.vdict [("homeworks", .vlist []), ("current_date", .vint 100)])
        = check_response (.vdict [("homeworks", .vlist [])]) :=
  ⟨rfl, rfl, rfl⟩

/-- C5 (amended).  For every mapping whose `homeworks` value is an ordered
sequence, `check_response` returns exactly that sequence verbatim (possibly
empty) and nothing else; the optional `current_date` field is left to the
caller. -/
theorem c5_verbatim_amended (es : List (String × PyVal)) (xs : List PyVal)
    (h : alookup es "homeworks" = some (.vlist xs)) :
    check_response (.vdict es) = .ok xs := by
  have hk : hasKey es "homeworks" = true := alookup_hasKey h
  simp [check_response, hk, dictGet, h]

/-- C5 witness: a one-record list is returned verbatim. -/
theorem c5_verbatim_witness :
    check_response (.vdict [("homeworks", .vlist [.vint 1]), ("current_date", .vint 9)])
      = .ok [.vint 1] :=
  c5_verbatim_amended [("homeworks", .vlist [.vint 1]), ("current_date", .vint 9)]
    [.vint 1] rfl

/-- C6.  For every record (mapping) carrying a `homework_name` field and a
`status` field whose value is a recognized verdict key, `parse_status`
returns exactly the templated sentence built from the name and the Verdict
Table's sentence for that status (the spec glosses the localized template
as `Status changed for submission "<name>". <verdict sentence>`). -/
theorem c6_parse_status_success (es : List (String × PyVal)) (name : PyVal)
    (st : String) (verdict : String)
    (hn : alookup es "homework_name" = some name)
    (hs : alookup es "status" = some (.vstr st))
    (hv : alookup HOMEWORK_VERDICTS st = some verdict) :
    parse_status (.vdict es)
      = .ok (HOMEWORK_STATUS_CHANGED_MESSAGE (pyStr name) verdict) := by
  have h1 : pyContains (.vdict es) "homework_name" = .ok true := by
    simp [pyContains, alookup_hasKey hn]
  have h2 : pyContains (.vdict es) "status" = .ok true := by
    simp [pyContains, alookup_hasKey hs]
  have h3 : pySubscript (.vdict es) "status" = .ok (.vstr st) := by
    simp [pySubscript, hs]
  have h4 : statusInVerdicts (.vstr st) = .ok true := by
    simp [statusInVerdicts, alookup_hasKey hv]
  have h5 : pySubscript (.vdict es) "homework_name" = .ok name := by
    simp [pySubscript, hn]
  simp [parse_status, h1, h2, h3, h4, h5, verdictsGet, hv, optStr]

/-- C6 witness: the spec's example record, with the `approved` verdict
sentence. -/
theorem c6_parse_status_success_witness :
    parse_status (.vdict [("homework_name", .vstr "Project 1"),
                          ("status", .vstr "approved")])
      = .ok "Изменился статус проверки работы \"Project 1\". Работа проверена: ревьюеру всё понравилось. Ура!" :=
  c6_parse_status_success
    [("homework_name", .vstr "Project 1"), ("status", .vstr "approved")]
    (.vstr "Project 1") "approved"
    "Работа проверена: ревьюеру всё понравилось. Ура!" rfl rfl rfl

/-- C7.  A record with both fields whose `status` value is a list is not a
recognized verdict key, yet `parse_status` fails with `TypeError`
(`unhashable type`) from the dict-membership test, not with the
`ValueError` the claim's `UnknownStatusError` denotes. -/
theorem c7_unhashable_status_counterexample :
    parse_status (.vdict [("homework_name", .vstr "x"), ("status", .vlist [])])
      = .error (.typeError "unhashable type: \x27list\x27")
    ∧ errKind (.typeError "unhashable type: \x27list\x27") ≠ "ValueError" :=
  ⟨rfl, by decide⟩

/-- C7 (amended).  A record (mapping) missing `homework_name` or `status`
fails with `KeyError` (the spec's `MissingFieldError`) whose message lists
exactly the missing keys, in source order; a record with both fields whose
status is hashable (string, number, boolean or null) but not a recognized
verdict key fails with `ValueError` (the spec's `UnknownStatusError`)
naming `str(status)`; an unhashable (list or mapping) status instead fails
with `TypeError` from the membership test. -/
theorem c7_parse_status_errors_amended :
    (∀ es, (hasKey es "homework_name" = false ∨ hasKey es "status" = false) →
      parse_status (.vdict es) = .error (.keyError (HOMEWORK_MISSING_KEYS
        ((if hasKey es "homework_name" then [] else ["homework_name"])
          ++ (if hasKey es "status" then [] else ["status"])))))
    ∧ (∀ es status, hasKey es "homework_name" = true →
        alookup es "status" = some status →
        statusInVerdicts status = .ok false →
        parse_status (.vdict es)
          = .error (.valueError (UNEXPECTED_HOMEWORK_STATUS (pyStr status)))) := by
  constructor
  · intro es h
    cases hb1 : hasKey es "homework_name" <;> cases hb2 : hasKey es "status"
    · simp [parse_status, pyContains, hb1, hb2]
    · simp [parse_status, pyContains, hb1, hb2]
    · simp [parse_status, pyContains, hb1, hb2]
    · rw [hb1, hb2] at h
      rcases h with h | h <;> exact absurd h (by decide)
  · intro es status h1 hs hmem
    have hk2 : hasKey es "status" = true := alookup_hasKey hs
    simp [parse_status, pyContains, h1, hk2, pySubscript, hs, hmem]

/-- C7 witness: a record missing only `status` is reported with exactly
that key, and the spec's `unknown_status` example fails with `ValueError`
naming the value. -/
theorem c7_parse_status_errors_witness :
    parse_status (.vdict [("homework_name", .vstr "x")])
      = .error (.keyError (HOMEWORK_MISSING_KEYS ["status"]))
    ∧ parse_status (.vdict [("homework_name", .vstr "x"),
                            ("status", .vstr "unknown_status")])
        = .error (.valueError (UNEXPECTED_HOMEWORK_STATUS "unknown_status")) :=
  ⟨c7_parse_status_errors_amended.1 [("homework_name", .vstr "x")] (Or.inr rfl),
   c7_parse_status_errors_amended.2
     [("homework_name", .vstr "x"), ("status", .vstr "unknown_status")]
     (.vstr "unknown_status") rfl rfl rfl⟩

/-- C2.  The cursor is not monotonic: a validated, successfully notified
response whose `current_date` is smaller than the held cursor makes `main`
reassign the cursor downward (from 1000 to 50 here). -/
theorem c2_cursor_decrease_counterexample :
    ({ timestamp := .vint 1000, api_answer := .vstr "", message := "",
       last_message := "" } : LoopState).timestamp = .vint 1000
    ∧ (cycle { timestamp := .vint 1000, api_answer := .vstr "", message := "",
               last_message := "" }
        (.ok ⟨200, .vdict [("homeworks",
            .vlist [.vdict [("homework_name", .vstr "HW2"),
                            ("status", .vstr "reviewing")]]),
          ("current_date", .vint 50)]⟩)).1.timestamp = .vint 50
    ∧ (50 : Int) < 1000 :=
  ⟨rfl, rfl, by decide⟩

/-- Guard used by the amended C2 claim: the retained response either has no
`current_date` entry or carries an integer one at least `t0`.  On non-dict
values (where the cursor assignment cannot run) it holds vacuously. -/
def cursorOk (t0 : Int) : PyVal → Bool
  | .vdict es =>
    match alookup es "current_date" with
    | none => true
    | some (.vint d) => decide (t0 ≤ d)
    | some _ => false
  | _ => true

/-- The second `try` block can only keep the cursor or move it to a
`current_date` value at least `t0`, under the `cursorOk` guard. -/
theorem step2_timestamp_mono (s : LoopState) (a : PyVal) (m : String) (t0 : Int)
    (h0 : s.timestamp = .vint t0) (hc : cursorOk t0 a = true) :
    ∃ t1 : Int, (step2 s a m).1.timestamp = .vint t1 ∧ t0 ≤ t1 := by
  unfold step2
  split
  · cases a with
    | vdict es =>
      simp only [dictGetD]
      cases hl : alookup es "current_date" with
      | none => exact ⟨t0, by simp [h0], le_refl t0⟩
      | some v =>
        cases v with
        | vint d =>
          simp [cursorOk, hl] at hc
          exact ⟨d, by simp, hc⟩
        | vnone => simp [cursorOk, hl] at hc
        | vbool b => simp [cursorOk, hl] at hc
        | vstr str => simp [cursorOk, hl] at hc
        | vlist xs => simp [cursorOk, hl] at hc
        | vdict es2 => simp [cursorOk, hl] at hc
    | vnone => exact ⟨t0, h0, le_refl t0⟩
    | vbool b => exact ⟨t0, h0, le_refl t0⟩
    | vint n => exact ⟨t0, h0, le_refl t0⟩
    | vstr str => exact ⟨t0, h0, le_refl t0⟩
    | vlist xs => exact ⟨t0, h0, le_refl t0⟩
  · exact ⟨t0, h0, le_refl t0⟩

/-- C2 (amended).  Across one cycle the cursor is either kept or reassigned
to the retained response's `current_date`; it is non-decreasing provided
every `current_date` the API returns is an integer at least the cursor
held (and it can decrease otherwise, as the counterexample shows). -/
theorem c2_cursor_monotone_amended (s : LoopState)
    (i : Except String HttpResponse) (t0 : Int)
    (h0 : s.timestamp = .vint t0)
    (hc : cursorOk t0 (step1 s i).1 = true) :
    ∃ t1 : Int, (cycle s i).1.timestamp = .vint t1 ∧ t0 ≤ t1 :=
  step2_timestamp_mono s (step1 s i).1 (step1 s i).2 t0 h0 hc

/-- C2 witness: the spec's end-to-end scenario, cursor 1000 advancing to
the returned `current_date` 2000. -/
theorem c2_cursor_monotone_witness :
    (cycle { timestamp := .vint 1000, api_answer := .vstr "", message := "",
             last_message := "" }
      (.ok ⟨200, .vdict [("homeworks",
          .vlist [.vdict [("homework_name", .vstr "HW2"),
                          ("status", .vstr "reviewing")]]),
        ("current_date", .vint 2000)]⟩)).1.timestamp = .vint 2000
    ∧ ∃ t1 : Int,
        (cycle { timestamp := .vint 1000, api_answer := .vstr "", message := "",
                 last_message := "" }
          (.ok ⟨200, .vdict [("homeworks",
              .vlist [.vdict [("homework_name", .vstr "HW2"),
                              ("status", .vstr "reviewing")]]),
            ("current_date", .vint 2000)]⟩)).1.timestamp = .vint t1
        ∧ (1000 : Int) ≤ t1 :=
  ⟨rfl,
   c2_cursor_monotone_amended
     { timestamp := .vint 1000, api_answer := .vstr "", message := "",
       last_message := "" }
     (.ok ⟨200, .vdict [("homeworks",
         .vlist [.vdict [("homework_name", .vstr "HW2"),
                         ("status", .vstr "reviewing")]]),
       ("current_date", .vint 2000)]⟩)
     1000 rfl rfl⟩

/-- C10.  In every cycle whose produced message is empty or equal to the
last-notified text, no send is attempted and the cursor is left exactly as
it was, even if the fetched response carries a new `current_date`; the
cursor assignment sits inside the send branch only. -/
theorem c10_frame_no_send (s : LoopState) (i : Except String HttpResponse)
    (h : (cycle s i).1.message = "" ∨ (cycle s i).1.message = s.last_message) :
    (cycle s i).1.timestamp = s.timestamp ∧ (cycle s i).2 = [] := by
  have hm : (cycle s i).1.message = (step1 s i).2 :=
    step2_message s (step1 s i).1 (step1 s i).2
  rw [hm] at h
  show (step2 s (step1 s i).1 (step1 s i).2).1.timestamp = s.timestamp
    ∧ (step2 s (step1 s i).1 (step1 s i).2).2 = []
  unfold step2
  rw [if_neg]
  · exact ⟨rfl, rfl⟩
  · rintro ⟨h1, h2⟩
    rcases h with h | h
    · exact h1 h
    · exact h2 h

/-- C10 witness: an empty homework list leaves the message empty, sends
nothing and keeps the cursor 5 even though `current_date` is 99. -/
theorem c10_frame_no_send_witness :
    (cycle { timestamp := .vint 5, api_answer := .vstr "", message := "",
             last_message := "" }
      (.ok ⟨200, .vdict [("homeworks", .vlist []),
                         ("current_date", .vint 99)]⟩)).1.timestamp = .vint 5
    ∧ (cycle { timestamp := .vint 5, api_answer := .vstr "", message := "",
               last_message := "" }
        (.ok ⟨200, .vdict [("homeworks", .vlist []),
                           ("current_date", .vint 99)]⟩)).2 = [] :=
  c10_frame_no_send
    { timestamp := .vint 5, api_answer := .vstr "", message := "",
      last_message := "" }
    (.ok ⟨200, .vdict [("homeworks", .vlist []), ("current_date", .vint 99)]⟩)
    (Or.inl rfl)

/-- C3.  The deduplication breaks on the code's own startup state: before
any successful fetch, `api_answer` is the string `''`, so after the first
error-diagnostic send `''.get('current_date', timestamp)` raises
`AttributeError`, the bare `except` swallows it, and `last_message` is
never updated — two consecutive cycles that produce the identical
diagnostic text each invoke the Notifier, against the dedup guard's
evident intent. -/
theorem c3_duplicate_send_bug :
    (cycle (initialState 1700000000) (.error "boom")).1.message
        = (cycle (cycle (initialState 1700000000) (.error "boom")).1
            (.error "boom")).1.message
    ∧ (cycle (initialState 1700000000) (.error "boom")).2
        = [(cycle (initialState 1700000000) (.error "boom")).1.message]
    ∧ (cycle (cycle (initialState 1700000000) (.error "boom")).1
        (.error "boom")).2
        = [(cycle (initialState 1700000000) (.error "boom")).1.message] :=
  ⟨rfl, rfl, rfl⟩

/-- C9.  `send_message` does not return a boolean success flag: its Python
return value is `None` on the failing transport as well, not `False`. -/
theorem c9_returns_none_counterexample :
    send_message "hi" (.error "Bad Request: chat not found")
      = .ok (none, [LogEvent.error
          (BOT_SEND_MESSAGE_ERROR "hi" "Bad Request: chat not found")])
    ∧ (none : Option Bool) ≠ some false ∧ (none : Option Bool) ≠ some true :=
  ⟨rfl, by decide, by decide⟩

/-- C9 (amended).  For every message and every transport outcome,
`send_message` returns normally (never propagates the exception); its
return value is always `None` rather than a boolean, and the failure is
observable only in the error log line it writes. -/
theorem c9_never_propagates_amended (message : String)
    (transport : Except String Unit) :
    ∃ logs, send_message message transport = .ok (none, logs) := by
  cases transport with
  | ok u => exact ⟨_, rfl⟩
  | error e => exact ⟨_, rfl⟩
